import Mathlib

/-
Verification of the newsvendor inventory model (src/newsvendor.py) against
its design specification.

Modelling conventions for the shallow embedding:
* Python numbers are modelled as exact rationals; where the int/float TYPE
  distinction is observable in the source (the range construction in the
  sweep operations), numbers are modelled by the tagged type PyNum.
* Python exceptions are modelled by Except PyErr.  Plain Python division
  raises ZeroDivisionError on a zero divisor; Python round of a nan (or of
  an infinity) raises; np.random.normal raises ValueError on a negative
  scale; range raises TypeError on a float bound.
* Python round and numpy round use round-half-to-even semantics, modelled
  exactly on rationals by roundHalfEven.
* scipy norm(mu, SD).ppf(p) returns an unspecified value when SD > 0 and
  0 < p < 1 and nan (or an infinite boundary value) otherwise; the valid
  region is kept abstract as a function argument qf, the invalid region is
  collapsed to none since every call site immediately rounds the result,
  which raises there.  scipy norm.sf is likewise kept abstract (sf).
* The random demand draws of the Monte Carlo evaluators are supplied as an
  explicit list argument (the realization of np.random.normal before the
  np.round that the code applies); the simulations/trials configuration
  only fixes the shape of that array, and np.mean aggregates over all its
  cells uniformly, so a flat list is faithful.  np.mean of an empty array
  is nan (a warning, not an exception); rational division by zero stands
  in for that value.
-/

namespace NewsvendorModel

/-- Python exceptions that the translated code can raise. -/
inductive PyErr where
  | zeroDivisionError
  | valueError
  | typeError
  deriving DecidableEq, Repr

/-- A Python number: an int or a float.  Floats are idealized as exact
rationals; the tag records the Python type where it is observable. -/
inductive PyNum where
  | int (n : ℤ)
  | float (q : ℚ)
  deriving DecidableEq, Repr

/-- Numeric value of a Python number. -/
def PyNum.toRat : PyNum → ℚ
  | .int n => (n : ℚ)
  | .float q => q

/-- Python addition: int + int is an int, any float operand gives a float. -/
def pyAdd : PyNum → PyNum → PyNum
  | .int a, .int b => .int (a + b)
  | a, b => .float (a.toRat + b.toRat)

/-- Python multiplication: int * int is an int, any float operand gives a
float. -/
def pyMul : PyNum → PyNum → PyNum
  | .int a, .int b => .int (a * b)
  | a, b => .float (a.toRat * b.toRat)

/-- Round to the nearest integer with ties to even (banker's rounding),
the semantics of Python round and numpy round. -/
def roundHalfEven (x : ℚ) : ℤ :=
  if x - ⌊x⌋ < 1 / 2 then ⌊x⌋
  else if 1 / 2 < x - ⌊x⌋ then ⌊x⌋ + 1
  else if ⌊x⌋ % 2 = 0 then ⌊x⌋ else ⌊x⌋ + 1

/-- Python round(x, 0) and np.round(x, 0): nearest integer, ties to even,
returned as a number. -/
def round0 (x : ℚ) : ℚ := (roundHalfEven x : ℚ)

/-- Python round(x, 2): two decimal places, ties to even. -/
def round2 (x : ℚ) : ℚ := (roundHalfEven (100 * x) : ℚ) / 100

/-- Python round(x, 4): four decimal places, ties to even. -/
def round4 (x : ℚ) : ℚ := (roundHalfEven (10000 * x) : ℚ) / 10000

/-- Python round applied to a possibly invalid float: round of nan raises
ValueError (round of an infinity raises OverflowError; the two failure
modes are collapsed into one error code, no claim distinguishes them). -/
def pyRound : Option ℚ → Except PyErr ℤ
  | none => .error .valueError
  | some q => .ok (roundHalfEven q)

/-- Plain Python division, raising ZeroDivisionError on a zero divisor. -/
def pyDiv (a b : ℚ) : Except PyErr ℚ :=
  if b = 0 then .error .zeroDivisionError else .ok (a / b)

/-- np.mean of a list of values (nan on an empty array becomes 0 under
rational division by zero; numpy only warns there). -/
def mean (l : List ℚ) : ℚ := l.sum / l.length

/-- np.max, raising ValueError on an empty array. -/
def npMax : List ℚ → Except PyErr ℚ
  | [] => .error .valueError
  | h :: t => .ok (t.foldl max h)

/-- np.min, raising ValueError on an empty array. -/
def npMin : List ℚ → Except PyErr ℚ
  | [] => .error .valueError
  | h :: t => .ok (t.foldl min h)

/-- Length of Python range(0, stop, step) for step different from 0: the
number of multiples of step lying strictly between 0 (inclusive) and stop
in the direction of step, namely the ceiling of stop / step when that is
positive. -/
def pyRangeLen (stop step : ℤ) : ℕ :=
  if 0 < step then (max 0 ((stop + step - 1).ediv step)).toNat
  else (max 0 ((-stop + -step - 1).ediv (-step))).toNat

/-- Python range(0, stop, step) as a list, for int stop and step; raises
ValueError on step 0, otherwise yields 0, step, 2*step, ... strictly
before stop (in the direction of step). -/
def pyRangeList (stop step : ℤ) : Except PyErr (List ℤ) :=
  if step = 0 then .error .valueError
  else .ok ((List.range (pyRangeLen stop step)).map fun i => step * (i : ℤ))

/-- scipy norm(mu, SD).ppf(p): the quantile function of the normal
distribution, abstract (qf) on its valid domain SD > 0, 0 < p < 1;
outside it scipy returns its bad value nan (or an infinite boundary value
at p = 0 or 1), collapsed to none. -/
def scipyNormPpf (qf : ℚ → ℚ → ℚ → ℚ) (mu SD p : ℚ) : Option ℚ :=
  if 0 < SD ∧ 0 < p ∧ p < 1 then some (qf mu SD p) else none

/-- The attribute record of a Newsvendor object (src lines 7 to 15).  The
salvage field models the attribute of that name created only by
clearParameters (src line 23); a freshly constructed object lacks it
(none).  The stored salvage VALUE used by the computations is
salvageprice. -/
structure NV where
  mu : PyNum
  SD : PyNum
  sellprice : ℚ
  cost : ℚ
  salvageprice : ℚ
  salvage : Option ℚ
  Cu : ℚ
  Co : ℚ
  criticalRatio : ℚ
  deriving DecidableEq, Repr

/-- Newsvendor.__init__ (src lines 7 to 15): stores the five base
parameters and derives Cu, Co and the critical ratio.  The critical-ratio
division is plain Python division and raises ZeroDivisionError when
Cu + Co = 0, in which case no object is produced. -/
def mkNewsvendor (demand SDv : PyNum) (sell cost salvage : ℚ) : Except PyErr NV :=
  if (sell - cost) + (cost - salvage) = 0 then .error .zeroDivisionError
  else .ok { mu := demand, SD := SDv, sellprice := sell, cost := cost,
             salvageprice := salvage, salvage := none,
             Cu := sell - cost, Co := cost - salvage,
             criticalRatio := (sell - cost) / ((sell - cost) + (cost - salvage)) }

/-- Newsvendor.clearParameters (src lines 18 to 26): zeroes mu, SD, the
prices and the derived values, but assigns the attribute named salvage
(src line 23) rather than salvageprice, which keeps its old value. -/
def clearParameters (s : NV) : NV :=
  { s with mu := .int 0, SD := .int 0, sellprice := 0, cost := 0,
           salvage := some 0, Cu := 0, Co := 0, criticalRatio := 0 }

/-- Newsvendor.setParameters (src lines 28 to 36): same assignments as
__init__ on an existing object; the salvage attribute (if present) is not
touched.  The division on src line 36 raises ZeroDivisionError when
Cu + Co = 0 (the base parameters have then already been assigned in
Python; that partially mutated state is unreachable by further calls here
since the exception propagates, so only the error is modelled). -/
def setParameters (s : NV) (demand SDv : PyNum) (sell cost salvage : ℚ) : Except PyErr NV :=
  if (sell - cost) + (cost - salvage) = 0 then .error .zeroDivisionError
  else .ok { s with mu := demand, SD := SDv, sellprice := sell, cost := cost,
                    salvageprice := salvage,
                    Cu := sell - cost, Co := cost - salvage,
                    criticalRatio := (sell - cost) / ((sell - cost) + (cost - salvage)) }

/-- Result record of Newsvendor.optimalQuantity (src line 50). -/
structure QuantitySummary where
  optimalQuantity : ℤ
  averageDemand : ℚ
  safetyStock : ℚ
  deriving DecidableEq, Repr

/-- Newsvendor.optimalQuantity (src lines 47 to 52): rounds the quantile
of the demand distribution at the critical ratio and derives the safety
stock. -/
def optimalQuantity (qf : ℚ → ℚ → ℚ → ℚ) (s : NV) : Except PyErr QuantitySummary :=
  match pyRound (scipyNormPpf qf s.mu.toRat s.SD.toRat s.criticalRatio) with
  | .error e => .error e
  | .ok op => .ok { optimalQuantity := op, averageDemand := s.mu.toRat,
                    safetyStock := (op : ℚ) - s.mu.toRat }

/-- The fill-rate expression shared by the Monte Carlo summaries (src
lines 87, 129, 168, 189): round(np.mean(np.minimum(demand, production))
divided by mu, 4). -/
def fillRateAt (mu : ℚ) (demand : List ℚ) (production : ℚ) : ℚ :=
  round4 (mean (demand.map fun d => min d production) / mu)

/-- Gross profit per demand cell (src lines 58 to 80): units sold times
selling price plus leftover times salvage price minus production times
unit cost. -/
def grossProfitAt (s : NV) (production d : ℚ) : ℚ :=
  min d production * s.sellprice + max (production - d) 0 * s.salvageprice
    - production * s.cost

/-- Result record of Newsvendor.optimalSummary (src lines 82 to 88). -/
structure OptSummary where
  orderQuantity : ℤ
  expectedProfit : ℚ
  expectedSales : ℚ
  expectedLostSales : ℚ
  expectedLeftover : ℚ
  fillRate : ℚ
  stockout : ℚ
  deriving DecidableEq, Repr

/-- Newsvendor.optimalSummary (src lines 54 to 92): Monte Carlo evaluation
at the analytically optimal quantity.  raw is the realization of the
np.random.normal draws (src line 56), to which the code applies np.round;
np.random.normal itself raises ValueError on a negative scale, which is
unreachable here because the quantile on src line 55 already raised. -/
def optimalSummary (qf : ℚ → ℚ → ℚ → ℚ) (sf : ℚ → ℚ) (s : NV) (raw : List ℚ) :
    Except PyErr OptSummary :=
  match pyRound (scipyNormPpf qf s.mu.toRat s.SD.toRat s.criticalRatio) with
  | .error e => .error e
  | .ok production =>
    if s.SD.toRat < 0 then .error .valueError
    else
      match pyDiv ((production : ℚ) - s.mu.toRat) s.SD.toRat with
      | .error e => .error e
      | .ok z =>
        .ok { orderQuantity := production,
              expectedProfit := round2 (mean ((raw.map round0).map
                (grossProfitAt s (production : ℚ)))),
              expectedSales := round0 (mean ((raw.map round0).map
                fun d => min d (production : ℚ))),
              expectedLostSales := round0 (mean ((raw.map round0).map
                fun d => max (d - (production : ℚ)) 0)),
              expectedLeftover := round0 (mean ((raw.map round0).map
                fun d => max ((production : ℚ) - d) 0)),
              fillRate := fillRateAt s.mu.toRat (raw.map round0) (production : ℚ),
              stockout := round4 (sf z) }

/-- Result record of Newsvendor.targetInStockProba (src lines 123 to 130). -/
structure TargetSummary where
  chosenInStockProbability : ℚ
  orderQuantity : ℤ
  expectedProfit : ℚ
  expectedSales : ℚ
  expectedLostSales : ℚ
  expectedLeftover : ℚ
  fillRate : ℚ
  stockout : ℚ
  deriving DecidableEq, Repr

/-- Newsvendor.targetInStockProba (src lines 94 to 132): Monte Carlo
evaluation at the quantile of a caller-chosen in-stock probability. -/
def targetInStockProba (qf : ℚ → ℚ → ℚ → ℚ) (sf : ℚ → ℚ) (s : NV)
    (instockPct : ℚ) (raw : List ℚ) : Except PyErr TargetSummary :=
  match pyRound (scipyNormPpf qf s.mu.toRat s.SD.toRat instockPct) with
  | .error e => .error e
  | .ok production =>
    if s.SD.toRat < 0 then .error .valueError
    else
      match pyDiv ((production : ℚ) - s.mu.toRat) s.SD.toRat with
      | .error e => .error e
      | .ok z =>
        .ok { chosenInStockProbability := instockPct,
              orderQuantity := production,
              expectedProfit := round2 (mean ((raw.map round0).map
                (grossProfitAt s (production : ℚ)))),
              expectedSales := round0 (mean ((raw.map round0).map
                fun d => min d (production : ℚ))),
              expectedLostSales := round0 (mean ((raw.map round0).map
                fun d => max (d - (production : ℚ)) 0)),
              expectedLeftover := round0 (mean ((raw.map round0).map
                fun d => max ((production : ℚ) - d) 0)),
              fillRate := fillRateAt s.mu.toRat (raw.map round0) (production : ℚ),
              stockout := round4 (sf z) }

/-- Result record of Newsvendor.quantityPerformanceSummary (src lines 163
to 169). -/
structure PerfSummary where
  chosenOrderQuantity : ℚ
  expectedProfit : ℚ
  expectedSales : ℚ
  expectedLostSales : ℚ
  expectedLeftover : ℚ
  fillRate : ℚ
  stockout : ℚ
  deriving DecidableEq, Repr

/-- Newsvendor.quantityPerformanceSummary (src lines 134 to 171): Monte
Carlo evaluation at a caller-supplied quantity.  np.random.normal (src
line 136) raises ValueError on a negative scale; the stockout division
(src line 169) raises ZeroDivisionError when SD = 0. -/
def quantityPerformanceSummary (sf : ℚ → ℚ) (s : NV) (quantity : ℚ)
    (raw : List ℚ) : Except PyErr PerfSummary :=
  if s.SD.toRat < 0 then .error .valueError
  else
    match pyDiv (quantity - s.mu.toRat) s.SD.toRat with
    | .error e => .error e
    | .ok z =>
      .ok { chosenOrderQuantity := quantity,
            expectedProfit := round2 (mean ((raw.map round0).map
              (grossProfitAt s quantity))),
            expectedSales := round0 (mean ((raw.map round0).map
              fun d => min d quantity)),
            expectedLostSales := round0 (mean ((raw.map round0).map
              fun d => max (d - quantity) 0)),
            expectedLeftover := round0 (mean ((raw.map round0).map
              fun d => max (quantity - d) 0)),
            fillRate := fillRateAt s.mu.toRat (raw.map round0) quantity,
            stockout := round4 (sf z) }

/-- The upper production bound self.mu + upper_SD_bound * self.SD,
computed in plain Python arithmetic (src lines 176 and 215), so its
int/float type follows Python promotion. -/
def sweepBound (s : NV) (upperSDBound : PyNum) : PyNum :=
  pyAdd s.mu (pyMul upperSDBound s.SD)

/-- range(0, upper_production_bound, steps) of src lines 177 and 216:
Python range raises TypeError when the bound is a float (even one with an
integral value). -/
def sweepRange (s : NV) (upperSDBound : PyNum) (steps : ℤ) : Except PyErr (List ℤ) :=
  match sweepBound s upperSDBound with
  | .int n => pyRangeList n steps
  | .float _ => .error .typeError

/-- Newsvendor.fillRateSummary (src lines 173 to 212), without the
presentation-only plotting branch: the fill-rate table keyed by candidate
quantity.  drawsAt j is the realization of the fresh np.random.normal
draws for candidate j (src line 184); np.random.normal raises ValueError
on a negative scale, observable only when the loop body runs at least
once. -/
def fillRateSummary (s : NV) (upperSDBound : PyNum) (steps : ℤ)
    (drawsAt : ℤ → List ℚ) : Except PyErr (List (ℤ × ℚ)) :=
  match sweepRange s upperSDBound steps with
  | .error e => .error e
  | .ok qs =>
    if s.SD.toRat < 0 ∧ qs ≠ [] then .error .valueError
    else .ok (qs.map fun j => (j, fillRateAt s.mu.toRat ((drawsAt j).map round0) (j : ℚ)))

/-- One row of the Newsvendor.quantityScreen table (src lines 262 to 270). -/
structure ScreenRow where
  units : ℤ
  avgProfit : ℚ
  maxProfit : ℚ
  minProfit : ℚ
  avgUnitsSold : ℚ
  avgLostSales : ℚ
  avgLeftoverUnits : ℚ
  deriving DecidableEq, Repr

/-- One iteration of the Newsvendor.quantityScreen loop (src lines 226 to
260); np.max and np.min raise on an empty draw array. -/
def screenRow (s : NV) (j : ℤ) (raw : List ℚ) : Except PyErr ScreenRow :=
  match npMax ((raw.map round0).map (grossProfitAt s (j : ℚ))),
        npMin ((raw.map round0).map (grossProfitAt s (j : ℚ))) with
  | .ok mx, .ok mn =>
    .ok { units := j,
          avgProfit := round2 (mean ((raw.map round0).map (grossProfitAt s (j : ℚ)))),
          maxProfit := round2 mx,
          minProfit := round2 mn,
          avgUnitsSold := round0 (mean ((raw.map round0).map fun d => min d (j : ℚ))),
          avgLostSales := round0 (mean ((raw.map round0).map fun d => max (d - (j : ℚ)) 0)),
          avgLeftoverUnits := round0 (mean ((raw.map round0).map fun d => max ((j : ℚ) - d) 0)) }
  | .error e, _ => .error e
  | _, .error e => .error e

/-- Newsvendor.quantityScreen (src lines 214 to 272): the profit profile
table keyed by candidate quantity. -/
def quantityScreen (s : NV) (upperSDBound : PyNum) (steps : ℤ)
    (drawsAt : ℤ → List ℚ) : Except PyErr (List ScreenRow) :=
  match sweepRange s upperSDBound steps with
  | .error e => .error e
  | .ok qs =>
    if s.SD.toRat < 0 ∧ qs ≠ [] then .error .valueError
    else qs.mapM fun j => screenRow s j (drawsAt j)

/-- The worked example of the spec: mean 100, SD 20, selling price 10,
unit cost 6, salvage value 2 (both ints of the demand pair, as a Python
user would write the literals). -/
def nv0 : NV :=
  { mu := .int 100, SD := .int 20, sellprice := 10, cost := 6,
    salvageprice := 2, salvage := none, Cu := 4, Co := 4, criticalRatio := 1/2 }

/-- The state produced by constructing with the worked-example prices and
a zero standard deviation. -/
def nvSD0 : NV :=
  { mu := .int 100, SD := .int 0, sellprice := 10, cost := 6,
    salvageprice := 2, salvage := none, Cu := 4, Co := 4, criticalRatio := 1/2 }

/-- The state produced by constructing with the worked-example prices and
a negative standard deviation. -/
def nvNegSD : NV :=
  { mu := .int 100, SD := .int (-20), sellprice := 10, cost := 6,
    salvageprice := 2, salvage := none, Cu := 4, Co := 4, criticalRatio := 1/2 }

/-- The worked-example state after clearParameters followed by
setParameters with the original arguments: identical to nv0 except for
the stray salvage attribute left by the reset. -/
def nvReset : NV := { nv0 with salvage := some 0 }

/-- A state whose mean demand is the float 100.5, giving the sweep
operations a non-integer upper production bound. -/
def nvHalf : NV :=
  { mu := .float (201/2), SD := .int 20, sellprice := 10, cost := 6,
    salvageprice := 2, salvage := none, Cu := 4, Co := 4, criticalRatio := 1/2 }

/-- A concrete stand-in for the abstract normal quantile, used only to
instantiate universally quantified theorems at a specific input. -/
def qf0 : ℚ → ℚ → ℚ → ℚ := fun _ _ _ => 107

/-- A concrete stand-in for the abstract standard normal survival
function, used only to instantiate theorems at a specific input. -/
def sf0 : ℚ → ℚ := fun _ => 0

/-- The value optimalQuantity returns on nv0 under qf0. -/
def qsW : QuantitySummary :=
  { optimalQuantity := 107, averageDemand := 100, safetyStock := 7 }

/-- The value quantityPerformanceSummary returns on nv0 at quantity 120
with the single draw 100 under sf0. -/
def perfW : PerfSummary :=
  { chosenOrderQuantity := 120, expectedProfit := 320, expectedSales := 100,
    expectedLostSales := 0, expectedLeftover := 20, fillRate := 1, stockout := 0 }

/-- The candidate quantities of the worked-example sweep: range(0, 160, 10). -/
def qs16 : List ℤ :=
  [0, 10, 20, 30, 40, 50, 60, 70, 80, 90, 100, 110, 120, 130, 140, 150]

/-- The fill-rate table of the worked-example sweep when every candidate
sees the single draw 100. -/
def frTable : List (ℤ × ℚ) :=
  [(0, 0), (10, 1/10), (20, 1/5), (30, 3/10), (40, 2/5), (50, 1/2),
   (60, 3/5), (70, 7/10), (80, 4/5), (90, 9/10), (100, 1), (110, 1),
   (120, 1), (130, 1), (140, 1), (150, 1)]

/-- Method-call view of optimalQuantity: the body (src lines 47 to 52)
assigns no attribute of self, so the post-call object state is the
unchanged receiver, paired here with the returned value. -/
def optimalQuantityCall (qf : ℚ → ℚ → ℚ → ℚ) (s : NV) :
    Except PyErr QuantitySummary × NV :=
  (optimalQuantity qf s, s)

/-- Method-call view of optimalSummary: the body (src lines 54 to 92)
assigns no attribute of self. -/
def optimalSummaryCall (qf : ℚ → ℚ → ℚ → ℚ) (sf : ℚ → ℚ) (s : NV) (raw : List ℚ) :
    Except PyErr OptSummary × NV :=
  (optimalSummary qf sf s raw, s)

/-- Method-call view of targetInStockProba: the body (src lines 94 to 132)
assigns no attribute of self. -/
def targetInStockProbaCall (qf : ℚ → ℚ → ℚ → ℚ) (sf : ℚ → ℚ) (s : NV)
    (instockPct : ℚ) (raw : List ℚ) : Except PyErr TargetSummary × NV :=
  (targetInStockProba qf sf s instockPct raw, s)

/-- Method-call view of quantityPerformanceSummary: the body (src lines
134 to 171) assigns no attribute of self. -/
def quantityPerformanceSummaryCall (sf : ℚ → ℚ) (s : NV) (quantity : ℚ)
    (raw : List ℚ) : Except PyErr PerfSummary × NV :=
  (quantityPerformanceSummary sf s quantity raw, s)

/-- Method-call view of fillRateSummary: the body (src lines 173 to 212)
assigns no attribute of self. -/
def fillRateSummaryCall (s : NV) (upperSDBound : PyNum) (steps : ℤ)
    (drawsAt : ℤ → List ℚ) : Except PyErr (List (ℤ × ℚ)) × NV :=
  (fillRateSummary s upperSDBound steps drawsAt, s)

/-- Method-call view of quantityScreen: the body (src lines 214 to 272)
assigns no attribute of self. -/
def quantityScreenCall (s : NV) (upperSDBound : PyNum) (steps : ℤ)
    (drawsAt : ℤ → List ℚ) : Except PyErr (List ScreenRow) × NV :=
  (quantityScreen s upperSDBound steps drawsAt, s)

theorem floor_le_roundHalfEven (x : ℚ) : ⌊x⌋ ≤ roundHalfEven x := by
  unfold roundHalfEven
  split_ifs <;> omega

theorem roundHalfEven_le_floor_add_one (x : ℚ) : roundHalfEven x ≤ ⌊x⌋ + 1 := by
  unfold roundHalfEven
  split_ifs <;> omega

theorem roundHalfEven_mono {a b : ℚ} (h : a ≤ b) : roundHalfEven a ≤ roundHalfEven b := by
  rcases lt_or_eq_of_le (Int.floor_le_floor h) with hf | hf
  · calc roundHalfEven a ≤ ⌊a⌋ + 1 := roundHalfEven_le_floor_add_one a
      _ ≤ ⌊b⌋ := by omega
      _ ≤ roundHalfEven b := floor_le_roundHalfEven b
  · unfold roundHalfEven
    rw [← hf]
    split_ifs <;> first | omega | linarith

theorem round4_mono {a b : ℚ} (h : a ≤ b) : round4 a ≤ round4 b := by
  unfold round4
  have h1 : roundHalfEven (10000 * a) ≤ roundHalfEven (10000 * b) :=
    roundHalfEven_mono (by linarith)
  have h2 : ((roundHalfEven (10000 * a) : ℤ) : ℚ) ≤ ((roundHalfEven (10000 * b) : ℤ) : ℚ) := by
    exact_mod_cast h1
  linarith

theorem round4_nonneg {a : ℚ} (h : 0 ≤ a) : 0 ≤ round4 a := by
  have h0 : round4 0 = 0 := by norm_num [round4, roundHalfEven]
  have := round4_mono h
  linarith

theorem round4_le_one {a : ℚ} (h : a ≤ 1) : round4 a ≤ 1 := by
  have h1 : round4 1 = 1 := by norm_num [round4, roundHalfEven]
  have := round4_mono h
  linarith

theorem sum_map_min_mono (l : List ℚ) {q r : ℚ} (h : q ≤ r) :
    (l.map fun d => min d q).sum ≤ (l.map fun d => min d r).sum := by
  induction l with
  | nil => simp
  | cons a t ih =>
    simp only [List.map_cons, List.sum_cons]
    exact add_le_add (min_le_min le_rfl h) ih

theorem sum_map_min_nonneg (l : List ℚ) {q : ℚ} (hq : 0 ≤ q)
    (hd : ∀ d ∈ l, 0 ≤ d) : 0 ≤ (l.map fun d => min d q).sum := by
  induction l with
  | nil => simp
  | cons a t ih =>
    simp only [List.map_cons, List.sum_cons]
    have h1 : 0 ≤ min a q := le_min (hd a (List.mem_cons_self a t)) hq
    have h2 := ih fun d hdm => hd d (List.mem_cons_of_mem a hdm)
    linarith

theorem sum_map_min_le_sum (l : List ℚ) (q : ℚ) :
    (l.map fun d => min d q).sum ≤ l.sum := by
  induction l with
  | nil => simp
  | cons a t ih =>
    simp only [List.map_cons, List.sum_cons]
    exact add_le_add (min_le_left a q) ih

theorem map_min_of_le (l : List ℚ) {q : ℚ} (h : ∀ d ∈ l, d ≤ q) :
    (l.map fun d => min d q) = l := by
  induction l with
  | nil => rfl
  | cons a t ih =>
    simp only [List.map_cons]
    rw [min_eq_left (h a (List.mem_cons_self a t)),
        ih fun d hdm => h d (List.mem_cons_of_mem a hdm)]

/-- C4: after Reset (clearParameters), meanDemand, demandStdDev,
sellingPrice, unitCost, underageCost, overageCost and criticalRatio are
all zero, while the salvageValue field used by all subsequent
computations (salvageprice) retains its previous value; only the
otherwise unused salvage attribute is set to zero. -/
theorem C4_reset_keeps_salvage_value (s : NV) :
    (clearParameters s).mu = PyNum.int 0 ∧ (clearParameters s).SD = PyNum.int 0 ∧
    (clearParameters s).sellprice = 0 ∧ (clearParameters s).cost = 0 ∧
    (clearParameters s).Cu = 0 ∧ (clearParameters s).Co = 0 ∧
    (clearParameters s).criticalRatio = 0 ∧
    (clearParameters s).salvageprice = s.salvageprice ∧
    (clearParameters s).salvage = some 0 :=
  ⟨rfl, rfl, rfl, rfl, rfl, rfl, rfl, rfl, rfl⟩

/-- C9: no evaluation operation (optimalQuantity, optimalSummary,
targetInStockProba, quantityPerformanceSummary, fillRateSummary,
quantityScreen) modifies any field of the parameter store, whether the
call succeeds or fails: the post-call state of each method-call view is
the unchanged receiver. -/
theorem C9_evaluation_preserves_parameters (qf : ℚ → ℚ → ℚ → ℚ) (sf : ℚ → ℚ)
    (s : NV) (p q : ℚ) (raw : List ℚ) (u : PyNum) (st : ℤ) (drawsAt : ℤ → List ℚ) :
    (optimalQuantityCall qf s).2 = s ∧
    (optimalSummaryCall qf sf s raw).2 = s ∧
    (targetInStockProbaCall qf sf s p raw).2 = s ∧
    (quantityPerformanceSummaryCall sf s q raw).2 = s ∧
    (fillRateSummaryCall s u st drawsAt).2 = s ∧
    (quantityScreenCall s u st drawsAt).2 = s :=
  ⟨rfl, rfl, rfl, rfl, rfl, rfl⟩

/-- C2: claimed that optimalQuantity returns exactly the mean demand when
the standard deviation is zero; in the code, scipy returns nan for the
zero scale and Python round of nan raises ValueError, so the call fails
instead, for every normal quantile function. -/
theorem C2_zero_sd_raises (qf : ℚ → ℚ → ℚ → ℚ) :
    mkNewsvendor (PyNum.int 100) (PyNum.int 0) 10 6 2 = Except.ok nvSD0 ∧
    optimalQuantity qf nvSD0 = Except.error PyErr.valueError :=
  ⟨by norm_num [mkNewsvendor, nvSD0], rfl⟩

/-- C6 counterexample: on a model that has been Reset, Update does not
reproduce exactly the state Construct produces, because the stray salvage
attribute created by clearParameters persists (some 0 against none). -/
theorem C6_counterexample :
    setParameters (clearParameters nv0) (PyNum.int 100) (PyNum.int 20) 10 6 2
      ≠ mkNewsvendor (PyNum.int 100) (PyNum.int 20) 10 6 2 := by
  intro h
  rw [show setParameters (clearParameters nv0) (PyNum.int 100) (PyNum.int 20) 10 6 2
          = Except.ok nvReset from by norm_num [setParameters, clearParameters, nv0, nvReset],
      show mkNewsvendor (PyNum.int 100) (PyNum.int 20) 10 6 2 = Except.ok nv0 from by
        norm_num [mkNewsvendor, nv0]] at h
  have h3 : nvReset = nv0 := by injection h
  have h4 : nvReset.salvage = nv0.salvage := congrArg NV.salvage h3
  exact Option.noConfusion h4

/-- C6 amended: Update (setParameters) replaces the five base parameters
and recomputes the three derived values exactly as Construct
(mkNewsvendor) does, raising the same error in the same cases; the only
difference is that the stray salvage attribute of the receiver is kept
instead of being absent. -/
theorem C6_update_matches_construct (s : NV) (d SDv : PyNum) (sell cost salvage : ℚ) :
    setParameters s d SDv sell cost salvage
      = Except.map (fun t => { t with salvage := s.salvage })
          (mkNewsvendor d SDv sell cost salvage) := by
  unfold setParameters mkNewsvendor
  split_ifs <;> rfl

/-- C5 counterexample: Construct does not fail for a negative standard
deviation even though it makes the downstream quantile computation
invalid (optimalQuantity then raises): construction succeeds. -/
theorem C5_counterexample :
    mkNewsvendor (PyNum.int 100) (PyNum.int (-20)) 10 6 2 = Except.ok nvNegSD ∧
    optimalQuantity qf0 nvNegSD = Except.error PyErr.valueError :=
  ⟨by norm_num [mkNewsvendor, nvNegSD], rfl⟩

/-- C5 amended: Construct and Update raise ZeroDivisionError exactly when
underageCost + overageCost = 0 and otherwise succeed; demandStdDev is not
validated at construction or update (a negative value is stored silently
and only downstream computations fail). -/
theorem C5_construct_validation (d SDv : PyNum) (sell cost salvage : ℚ) (s : NV) :
    ((sell - cost) + (cost - salvage) = 0 →
      mkNewsvendor d SDv sell cost salvage = Except.error PyErr.zeroDivisionError ∧
      setParameters s d SDv sell cost salvage = Except.error PyErr.zeroDivisionError) ∧
    ((sell - cost) + (cost - salvage) ≠ 0 →
      (∃ t, mkNewsvendor d SDv sell cost salvage = Except.ok t) ∧
      (∃ t, setParameters s d SDv sell cost salvage = Except.ok t)) := by
  unfold mkNewsvendor setParameters
  constructor
  · intro h
    rw [if_pos h, if_pos h]
    exact ⟨rfl, rfl⟩
  · intro h
    rw [if_neg h, if_neg h]
    exact ⟨⟨_, rfl⟩, ⟨_, rfl⟩⟩

/-- C5 witness: with selling price, unit cost and salvage value all 6,
underage plus overage cost is zero and both Construct and Update raise
ZeroDivisionError. -/
theorem C5_witness :
    mkNewsvendor (PyNum.int 100) (PyNum.int 20) 6 6 6 = Except.error PyErr.zeroDivisionError ∧
    setParameters nv0 (PyNum.int 100) (PyNum.int 20) 6 6 6
      = Except.error PyErr.zeroDivisionError :=
  (C5_construct_validation (PyNum.int 100) (PyNum.int 20) 6 6 6 nv0).1 (by norm_num)

/-- C1: optimalQuantity returns exactly the rounded quantile of the
demand distribution at the critical-ratio probability, with
round-half-to-even semantics (pyRound of scipyNormPpf), and on success a
safety stock equal to that order quantity minus the mean demand. -/
theorem C1_optimal_quantity_formula (qf : ℚ → ℚ → ℚ → ℚ) (s : NV) :
    Except.map QuantitySummary.optimalQuantity (optimalQuantity qf s)
      = pyRound (scipyNormPpf qf s.mu.toRat s.SD.toRat s.criticalRatio) ∧
    ∀ r, optimalQuantity qf s = Except.ok r →
      r.optimalQuantity = roundHalfEven (qf s.mu.toRat s.SD.toRat s.criticalRatio) ∧
      r.safetyStock = (r.optimalQuantity : ℚ) - s.mu.toRat := by
  cases hsp : pyRound (scipyNormPpf qf s.mu.toRat s.SD.toRat s.criticalRatio) with
  | error e =>
    constructor
    · unfold optimalQuantity
      simp only [hsp, Except.map]
    · intro r hr
      unfold optimalQuantity at hr
      simp only [hsp] at hr
      exact Except.noConfusion hr
  | ok op =>
    constructor
    · unfold optimalQuantity
      simp only [hsp, Except.map]
    · intro r hr
      unfold optimalQuantity at hr
      simp only [hsp] at hr
      injection hr with hr
      subst hr
      refine ⟨?_, rfl⟩
      unfold scipyNormPpf at hsp
      split_ifs at hsp with hc
      · simp only [pyRound] at hsp
        injection hsp with hsp
        exact hsp.symm
      · simp only [pyRound] at hsp
        exact Except.noConfusion hsp

/-- C1 witness: on the worked example with a quantile stub returning 107,
optimalQuantity yields order quantity 107 and safety stock 7. -/
theorem C1_witness :
    optimalQuantity qf0 nv0 = Except.ok qsW ∧
    qsW.optimalQuantity = roundHalfEven (qf0 nv0.mu.toRat nv0.SD.toRat nv0.criticalRatio) ∧
    qsW.safetyStock = (qsW.optimalQuantity : ℚ) - nv0.mu.toRat := by
  have h : optimalQuantity qf0 nv0 = Except.ok qsW := by
    norm_num [optimalQuantity, qf0, nv0, qsW, scipyNormPpf, pyRound, roundHalfEven, PyNum.toRat]
  exact ⟨h, (C1_optimal_quantity_formula qf0 nv0).2 qsW h⟩

/-- C3 counterexample: with mean 100, SD 20, bound 3 and step 10 the
fill-rate table exists but its candidate quantities do not run up to 160;
160 is not among them (the last is 150), refuting the claim that the
quantities run from 0 to 160. -/
theorem C3_counterexample :
    fillRateSummary nv0 (PyNum.int 3) 10 (fun _ => [100]) = Except.ok frTable ∧
    ¬ (160 ∈ frTable.map Prod.fst) ∧ (frTable.map Prod.fst).getLast? = some 150 := by
  refine ⟨?_, by decide, by decide⟩
  unfold fillRateSummary
  rw [show sweepRange nv0 (PyNum.int 3) 10 = Except.ok qs16 from rfl]
  norm_num [qs16, frTable, nv0, PyNum.toRat, fillRateAt, mean, round0, round4, roundHalfEven]

/-- C3 amended: with mean 100, SD 20, upper bound 3 and step 10 the
fill-rate sweep returns a table whose candidate quantities are exactly
the integers from 0 up to 160 exclusive stepping by 10, in ascending
order, i.e. 0, 10, ..., 150, for every realization of the draws. -/
theorem C3_sweep_quantities (drawsAt : ℤ → List ℚ) :
    Except.map (fun t => t.map Prod.fst) (fillRateSummary nv0 (PyNum.int 3) 10 drawsAt)
      = Except.ok qs16 := by
  unfold fillRateSummary
  rw [show sweepRange nv0 (PyNum.int 3) 10 = Except.ok qs16 from rfl]
  norm_num [qs16, nv0, PyNum.toRat, Except.map]

/-- C10: the sweep operations succeed only when the upper production
bound mu + upperSDBound * SD is (typed as) an integer; whenever its value
is not an integer, both fail with TypeError at the range construction,
for every draw realization. -/
theorem C10_sweep_integer_bound (s : NV) (u : PyNum) (st : ℤ) (dF dG : ℤ → List ℚ) :
    ((¬ ∃ n : ℤ, (sweepBound s u).toRat = (n : ℚ)) →
      fillRateSummary s u st dF = Except.error PyErr.typeError ∧
      quantityScreen s u st dG = Except.error PyErr.typeError) ∧
    (∀ t, fillRateSummary s u st dF = Except.ok t →
      ∃ n : ℤ, (sweepBound s u).toRat = (n : ℚ)) ∧
    (∀ t, quantityScreen s u st dG = Except.ok t →
      ∃ n : ℤ, (sweepBound s u).toRat = (n : ℚ)) := by
  cases hb : sweepBound s u with
  | int n =>
    have hex : ∃ m : ℤ, (PyNum.int n).toRat = (m : ℚ) := ⟨n, rfl⟩
    exact ⟨fun hni => absurd hex hni, fun _ _ => hex, fun _ _ => hex⟩
  | float x =>
    have hf : fillRateSummary s u st dF = Except.error PyErr.typeError := by
      unfold fillRateSummary sweepRange
      simp only [hb]
    have hq : quantityScreen s u st dG = Except.error PyErr.typeError := by
      unfold quantityScreen sweepRange
      simp only [hb]
    refine ⟨fun _ => ⟨hf, hq⟩, fun t ht => ?_, fun t ht => ?_⟩
    · rw [hf] at ht
      exact Except.noConfusion ht
    · rw [hq] at ht
      exact Except.noConfusion ht

/-- C10 witness: with the float mean demand 100.5 and SD 20, the upper
bound 160.5 is not an integer and both sweep operations raise TypeError. -/
theorem C10_witness :
    fillRateSummary nvHalf (PyNum.int 3) 10 (fun _ => [100]) = Except.error PyErr.typeError ∧
    quantityScreen nvHalf (PyNum.int 3) 10 (fun _ => [100]) = Except.error PyErr.typeError := by
  have hb : sweepBound nvHalf (PyNum.int 3) = PyNum.float (321/2) := by
    norm_num [sweepBound, nvHalf, pyAdd, pyMul, PyNum.toRat]
  have hni : ¬ ∃ n : ℤ, (sweepBound nvHalf (PyNum.int 3)).toRat = (n : ℚ) := by
    intro hex
    obtain ⟨n, hn⟩ := hex
    rw [hb] at hn
    simp only [PyNum.toRat] at hn
    have h2 : (2 : ℚ) * n = 321 := by linarith
    have h3 : (2 : ℤ) * n = 321 := by exact_mod_cast h2
    omega
  exact (C10_sweep_integer_bound nvHalf (PyNum.int 3) 10
    (fun _ => [100]) (fun _ => [100])).1 hni

/-- C7 counterexample: at quantity 200 with the single demand draw 101
and mean demand 100, the fill rate reported by quantityPerformanceSummary
is 1.01, outside [0,1] (and constant in the quantity from there on, so it
does not converge to 1 for this fixed realization). -/
theorem C7_counterexample :
    Except.map PerfSummary.fillRate (quantityPerformanceSummary sf0 nv0 200 [101])
      = Except.ok (101/100) ∧ ¬ ((101 : ℚ)/100 ≤ 1) := by
  constructor
  · norm_num [quantityPerformanceSummary, sf0, nv0, pyDiv, PyNum.toRat, fillRateAt,
      grossProfitAt, mean, round0, round2, round4, roundHalfEven, Except.map]
  · norm_num

/-- C7 amended: for a fixed nonempty realization of the rounded demand
draws and positive mean demand, the fill-rate expression is nondecreasing
in the quantity; it lies in [0,1] whenever all draws are nonnegative, the
quantity is nonnegative and the sample mean of the draws is at most the
mean demand; and once the quantity dominates every draw it is constant at
round4 of (sample mean / mean demand), the value it converges to (1 only
when the sample mean matches the mean demand up to rounding). -/
theorem C7_fillrate_amended (mu q1 q2 : ℚ) (demand : List ℚ)
    (hmu : 0 < mu) (hne : demand ≠ []) :
    (q1 ≤ q2 → fillRateAt mu demand q1 ≤ fillRateAt mu demand q2) ∧
    ((∀ d ∈ demand, 0 ≤ d) → 0 ≤ q1 → mean demand ≤ mu →
      0 ≤ fillRateAt mu demand q1 ∧ fillRateAt mu demand q1 ≤ 1) ∧
    ((∀ d ∈ demand, d ≤ q1) → fillRateAt mu demand q1 = round4 (mean demand / mu)) := by
  have hlen : (0 : ℚ) < demand.length := by
    have h0 : 0 < demand.length := List.length_pos.mpr hne
    exact_mod_cast h0
  refine ⟨?_, ?_, ?_⟩
  · intro hq
    apply round4_mono
    have hsum := sum_map_min_mono demand hq
    unfold mean
    rw [List.length_map, List.length_map]
    gcongr
  · intro hd hq hmean
    constructor
    · apply round4_nonneg
      unfold mean
      rw [List.length_map]
      have hnum := sum_map_min_nonneg demand hq hd
      positivity
    · apply round4_le_one
      rw [div_le_one hmu]
      unfold mean at hmean ⊢
      rw [List.length_map]
      calc (demand.map fun d => min d q1).sum / (demand.length : ℚ)
          ≤ demand.sum / (demand.length : ℚ) := by
            have := sum_map_min_le_sum demand q1
            gcongr
        _ ≤ mu := hmean
  · intro hle
    unfold fillRateAt
    rw [map_min_of_le demand hle]

/-- C7 witness: mean demand 100, draws 90 and 110, quantities 110 and
120: the fill rate is monotone between them, lies in [0,1] at 110, and at
110 (which dominates both draws) equals round4 of the sample-mean ratio. -/
theorem C7_witness :
    (fillRateAt 100 [90, 110] 110 ≤ fillRateAt 100 [90, 110] 120) ∧
    (0 ≤ fillRateAt 100 [90, 110] 110 ∧ fillRateAt 100 [90, 110] 110 ≤ 1) ∧
    fillRateAt 100 [90, 110] 110 = round4 (mean [90, 110] / 100) := by
  obtain ⟨h1, h2, h3⟩ := C7_fillrate_amended 100 110 120 [90, 110] (by norm_num) (by simp)
  refine ⟨h1 (by norm_num), h2 ?_ (by norm_num) ?_, h3 ?_⟩
  · intro d hd
    fin_cases hd <;> norm_num
  · norm_num [mean]
  · intro d hd
    fin_cases hd <;> norm_num

/-- C8: in every Monte Carlo evaluation entry point (optimalSummary,
targetInStockProba, quantityPerformanceSummary) the reported stockout
probability equals round4 of the standard normal survival function at
(order quantity minus mean demand) / SD, computed from the parameters and
the quantity alone: on success it has exactly that value, and extracting
the stockout field gives the same result for any two draw realizations. -/
theorem C8_stockout_analytic (qf : ℚ → ℚ → ℚ → ℚ) (sf : ℚ → ℚ) (s : NV)
    (p q : ℚ) (raw raw2 : List ℚ) :
    (∀ r, optimalSummary qf sf s raw = Except.ok r →
      r.stockout = round4 (sf (((r.orderQuantity : ℚ) - s.mu.toRat) / s.SD.toRat))) ∧
    (∀ r, targetInStockProba qf sf s p raw = Except.ok r →
      r.stockout = round4 (sf (((r.orderQuantity : ℚ) - s.mu.toRat) / s.SD.toRat))) ∧
    (∀ r, quantityPerformanceSummary sf s q raw = Except.ok r →
      r.stockout = round4 (sf ((q - s.mu.toRat) / s.SD.toRat))) ∧
    Except.map OptSummary.stockout (optimalSummary qf sf s raw)
      = Except.map OptSummary.stockout (optimalSummary qf sf s raw2) ∧
    Except.map TargetSummary.stockout (targetInStockProba qf sf s p raw)
      = Except.map TargetSummary.stockout (targetInStockProba qf sf s p raw2) ∧
    Except.map PerfSummary.stockout (quantityPerformanceSummary sf s q raw)
      = Except.map PerfSummary.stockout (quantityPerformanceSummary sf s q raw2) := by
  refine ⟨?_, ?_, ?_, ?_, ?_, ?_⟩
  · intro r hr
    unfold optimalSummary at hr
    cases hpp : pyRound (scipyNormPpf qf s.mu.toRat s.SD.toRat s.criticalRatio) with
    | error e =>
      simp only [hpp] at hr
      exact Except.noConfusion hr
    | ok production =>
      simp only [hpp] at hr
      split_ifs at hr
      cases hz : pyDiv ((production : ℚ) - s.mu.toRat) s.SD.toRat with
        | error e =>
          simp only [hz] at hr
          exact Except.noConfusion hr
        | ok z =>
          simp only [hz] at hr
          injection hr with hr
          subst hr
          unfold pyDiv at hz
          split_ifs at hz
          injection hz with hz
          subst hz
          rfl
  · intro r hr
    unfold targetInStockProba at hr
    cases hpp : pyRound (scipyNormPpf qf s.mu.toRat s.SD.toRat p) with
    | error e =>
      simp only [hpp] at hr
      exact Except.noConfusion hr
    | ok production =>
      simp only [hpp] at hr
      split_ifs at hr
      cases hz : pyDiv ((production : ℚ) - s.mu.toRat) s.SD.toRat with
        | error e =>
          simp only [hz] at hr
          exact Except.noConfusion hr
        | ok z =>
          simp only [hz] at hr
          injection hr with hr
          subst hr
          unfold pyDiv at hz
          split_ifs at hz
          injection hz with hz
          subst hz
          rfl
  · intro r hr
    unfold quantityPerformanceSummary at hr
    split_ifs at hr
    cases hz : pyDiv (q - s.mu.toRat) s.SD.toRat with
      | error e =>
        simp only [hz] at hr
        exact Except.noConfusion hr
      | ok z =>
        simp only [hz] at hr
        injection hr with hr
        subst hr
        unfold pyDiv at hz
        split_ifs at hz
        injection hz with hz
        subst hz
        rfl
  · unfold optimalSummary
    cases hpp : pyRound (scipyNormPpf qf s.mu.toRat s.SD.toRat s.criticalRatio) with
    | error e => simp only [hpp]
    | ok production =>
      simp only [hpp]
      split_ifs
      · rfl
      · cases hz : pyDiv ((production : ℚ) - s.mu.toRat) s.SD.toRat with
        | error e => simp only [hz]
        | ok z => simp only [hz, Except.map]
  · unfold targetInStockProba
    cases hpp : pyRound (scipyNormPpf qf s.mu.toRat s.SD.toRat p) with
    | error e => simp only [hpp]
    | ok production =>
      simp only [hpp]
      split_ifs
      · rfl
      · cases hz : pyDiv ((production : ℚ) - s.mu.toRat) s.SD.toRat with
        | error e => simp only [hz]
        | ok z => simp only [hz, Except.map]
  · unfold quantityPerformanceSummary
    split_ifs
    · rfl
    · cases hz : pyDiv (q - s.mu.toRat) s.SD.toRat with
      | error e => simp only [hz]
      | ok z => simp only [hz, Except.map]

/-- C8 witness: on the worked example at quantity 120 with the single
draw 100 and survival stub sf0, the summary succeeds and its stockout
field equals round4 of sf0 at (120 - 100) / 20. -/
theorem C8_witness :
    quantityPerformanceSummary sf0 nv0 120 [100] = Except.ok perfW ∧
    perfW.stockout = round4 (sf0 ((120 - nv0.mu.toRat) / nv0.SD.toRat)) := by
  have h : quantityPerformanceSummary sf0 nv0 120 [100] = Except.ok perfW := by
    norm_num [quantityPerformanceSummary, sf0, nv0, perfW, pyDiv, PyNum.toRat, fillRateAt,
      grossProfitAt, mean, round0, round2, round4, roundHalfEven]
  exact ⟨h, (C8_stockout_analytic qf0 sf0 nv0 (1/2) 120 [100] [100]).2.2.1 perfW h⟩

end NewsvendorModel
